import Mathlib

/-!
Verification of the CTMS Prometheus metrics subsystem (`ctms/metrics.py`):
the registry selection logic (`get_metrics_reporting_registry`), the label
pre-registration algorithm (`init_metrics_labels`) and the per-response
emission pipeline (`emit_response_metrics`).

The embedding models metric series as association lists from label tuples to
series values.  Counters hold a natural-number count; histogram series hold a
rational sum together with a per-bucket count function (index `i` counts
observations falling in the `i`-th upper bound of the configured bucket list,
the index one past the finite bounds being the `+Inf` bucket).  A Python
`dict` of metrics is a list of key names together with the series state; a
missing key lookup is an exception, modelled with `Except`.
-/

namespace Ctms

/-! ### Association-list maps (the per-series state of one metric) -/

/-- Lookup in an association list, first match wins (dict semantics). -/
def alookup {α β : Type} [DecidableEq α] (k : α) : List (α × β) → Option β
  | [] => none
  | (a, b) :: t => if a = k then some b else alookup k t

/-- Update at key `k`: apply `f` to the stored value if the key is present,
otherwise append the key with `f d`.  `labels(...)` followed by `inc`/
`observe` is `aupdate k default op`; `labels(...)` alone (pre-touching a
series, which creates it at its zero value) is `aupdate k default id`. -/
def aupdate {α β : Type} [DecidableEq α] (k : α) (d : β) (f : β → β) :
    List (α × β) → List (α × β)
  | [] => [(k, f d)]
  | (a, b) :: t => if a = k then (a, f b) :: t else (a, b) :: aupdate k d f t

/-- Touch a series: create it at its default (zero) value if absent,
leave it unchanged if present (`metric.labels(...)` without `inc`). -/
def touch {α β : Type} [DecidableEq α] (d : β) (m : List (α × β)) (k : α) :
    List (α × β) :=
  aupdate k d id m

/-- Touch every key of `ks` in order. -/
def touchList {α β : Type} [DecidableEq α] (d : β) (ks : List α)
    (m : List (α × β)) : List (α × β) :=
  ks.foldl (touch d) m

/-! ### Histogram series -/

/-- The finite upper bucket bounds of `ctms_requests_duration_seconds`,
from `METRICS_PARAMS`: `(0.01, 0.05, 0.1, 0.5, 1, 5, 10, INF)`; the final
`INF` bound is represented implicitly as the index `histBounds.length`. -/
def histBounds : List ℚ := [1/100, 1/20, 1/10, 1/2, 1, 5, 10]

/-- Index of the bucket an observed value falls into: the first upper bound
that is at least the value, or the `+Inf` bucket when none is. -/
def bucketIndex (v : ℚ) : ℕ :=
  (histBounds.findIdx (fun b => decide (v ≤ b))).min histBounds.length

/-- One histogram series: running sum and per-bucket observation counts. -/
structure HistSeries where
  sum : ℚ
  buckets : ℕ → ℕ

/-- A freshly created (pre-touched) histogram series. -/
def histZero : HistSeries := { sum := 0, buckets := fun _ => 0 }

/-- `observe(v)`: add `v` to the sum and count the matching bucket. -/
def observeOne (v : ℚ) (h : HistSeries) : HistSeries :=
  { sum := h.sum + v
    buckets := fun i => if i = bucketIndex v then h.buckets i + 1 else h.buckets i }

/-! ### Label keys and the metrics state -/

/-- `str(status_code)[0] + "xx"`. -/
def statusFamily (code : ℕ) : String :=
  (toString code).take 1 ++ "xx"

/-- Labels of `ctms_requests_total`: method, path_template, status_code,
status_code_family. -/
abbrev RequestsKey := String × String × ℕ × String

/-- Labels of `ctms_requests_duration_seconds`: method, path_template,
status_code_family. -/
abbrev DurationKey := String × String × String

/-- Labels of `ctms_api_requests_total`: method, path_template, client_id,
status_code_family. -/
abbrev ApiKey := String × String × String × String

/-- The series of the three request-facing metrics. -/
@[ext]
structure MetricsState where
  requests : List (RequestsKey × ℕ)
  requests_duration : List (DurationKey × HistSeries)
  api_requests : List (ApiKey × ℕ)

/-- State with no series at all. -/
def emptyState : MetricsState :=
  { requests := [], requests_duration := [], api_requests := [] }

/-- The Python `metrics` dict: which metric names are present as keys, plus
the series state of the request-facing metrics.  `metrics[name]` raises
`KeyError` when `name` is not in `names`. -/
structure MetricsDict where
  names : List String
  state : MetricsState

/-- The metric names installed by `init_metrics` (keys of `METRICS_PARAMS`). -/
def standardNames : List String :=
  ["requests", "requests_duration", "api_requests", "pending_acoustic_sync"]

/-- Value of a counter series (`0` when the series does not exist). -/
def counterVal {α : Type} [DecidableEq α] (m : List (α × ℕ)) (k : α) : ℕ :=
  (alookup k m).getD 0

/-! ### The per-request context

One field per key of the `context` dict; `none` models an absent key (for
`path_template` and `client_id` it also covers a stored `None`, which
`dict.get` does not distinguish from absence). -/

structure Context where
  method : Option String
  path_template : Option String
  duration_s : Option ℚ
  status_code : Option ℕ
  client_id : Option String

/-! ### emit_response_metrics

Faithful to the source: empty `metrics` dict is a no-op; a falsy
`path_template` (absent, `None`, or the empty string) is a no-op; then
`context["method"]`, `context["duration_s"]`, `context["status_code"]` are
read (raising on absence), the requests counter is incremented and the
duration histogram observed, and if `context.get("client_id")` is truthy the
per-client counter is incremented.  A raised exception is `Except.error ()`
(the model discards the partially mutated state on an exception, which no
claim below depends on). -/

def emit_response_metrics (context : Context) (metrics : MetricsDict) :
    Except Unit MetricsDict :=
  if metrics.names = [] then Except.ok metrics
  else if context.path_template = none ∨ context.path_template = some "" then
    Except.ok metrics
  else
    match context.method, context.duration_s, context.status_code,
        context.path_template with
    | some method, some duration_s, some status_code, some path_template =>
      let status_code_family := statusFamily status_code
      if "requests" ∈ metrics.names then
        let st1 := { metrics.state with
          requests := aupdate (method, path_template, status_code,
            status_code_family) 0 (· + 1) metrics.state.requests }
        if "requests_duration" ∈ metrics.names then
          let st2 := { st1 with
            requests_duration := aupdate (method, path_template,
              status_code_family) histZero (observeOne duration_s)
              st1.requests_duration }
          match context.client_id with
          | none => Except.ok { metrics with state := st2 }
          | some client_id =>
            if client_id = "" then Except.ok { metrics with state := st2 }
            else if "api_requests" ∈ metrics.names then
              Except.ok { metrics with state := { st2 with
                api_requests := aupdate (method, path_template, client_id,
                  status_code_family) 0 (· + 1) st2.api_requests } }
            else Except.error ()
        else Except.error ()
      else Except.error ()
    | _, _, _, _ => Except.error ()

/-! ### init_metrics_labels

The OpenAPI spec is modelled as the part the function reads: per path, the
ordered list of `(method_lower, mspec)` operations, where an operation
carries the list of declared response codes (`None` when the `responses` key
is absent, in which case the code substitutes `[200]`) and whether the
`security` key is present.  Routes carry their methods and path template. -/

structure MethodSpec where
  responses : Option (List ℕ)
  security : Bool
deriving DecidableEq

structure PathItem where
  ops : List (String × MethodSpec)
deriving DecidableEq

/-- `openapi["paths"]`: path template to path item. -/
abbrev OpenApi := List (String × PathItem)

/-- One starlette `Route`: `list(route.methods)` and `route.path_format`. -/
structure RouteInfo where
  methods : List String
  path_format : String
deriving DecidableEq

/-- Python's `str.upper` on the ASCII method names of an OpenAPI spec:
upper-case every character. -/
def pyUpper (s : String) : String := String.mk (s.data.map Char.toUpper)

/-- Python's `str.endswith`: the second string is a suffix of the first. -/
def pyEndsWith (s suffix : String) : Bool := suffix.data.isSuffixOf s.data

/-- Lexicographic comparison of character lists by code point. -/
def charsLe : List Char → List Char → Bool
  | [], _ => true
  | _ :: _, [] => false
  | a :: as, b :: bs =>
      if a.toNat < b.toNat then true
      else if a.toNat = b.toNat then charsLe as bs
      else false

/-- Python's `<=` on strings: code-point lexicographic order (what `sorted`
uses on the family strings). -/
def pyStrLe (a b : String) : Bool := charsLe a.data b.data

/-- The loop over `api_spec.items()` inside `init_metrics_labels`:
accumulates the declared status codes of the operations whose upper-cased
method is among the route's methods, and folds `is_api` with
`"security" in mspec and not path.endswith("from_pubsub")`. -/
def collectRoute (methods : List String) (path : String) (item : PathItem) :
    List ℕ × Bool :=
  item.ops.foldl
    (fun acc op =>
      if pyUpper op.1 ∈ methods then
        (acc.1 ++ op.2.responses.getD [200],
          acc.2 || (op.2.security && !pyEndsWith path "from_pubsub"))
      else acc)
    ([], false)

/-- Status codes and `is_api` for one route: `openapi["paths"].get(path)` is
truthy only when the path is present with a non-empty item; otherwise the
root path gets the synthetic `[307]` and every other path `[200]`. -/
def routeStatusCodes (openapi : OpenApi) (methods : List String)
    (path : String) : List ℕ × Bool :=
  match alookup path openapi with
  | some item =>
      if item.ops.isEmpty then (if path = "/" then [307] else [200], false)
      else collectRoute methods path item
  | none => (if path = "/" then [307] else [200], false)

/-- `sorted({str(code)[0] + "xx" for code in status_codes})`. -/
def statusCodeFamilies (codes : List ℕ) : List String :=
  ((codes.map statusFamily).dedup).insertionSort (fun a b => pyStrLe a b = true)

/-- Label tuples touched on the requests counter for one route:
`product(methods, status_codes)` with the family derived per status code. -/
def requestCombos (methods : List String) (path : String) (codes : List ℕ) :
    List RequestsKey :=
  (methods.product codes).map (fun mc => (mc.1, path, mc.2, statusFamily mc.2))

/-- Label tuples touched on the duration histogram for one route:
`product(methods, status_code_families)`. -/
def durationCombos (methods : List String) (path : String)
    (fams : List String) : List DurationKey :=
  (methods.product fams).map (fun mf => (mf.1, path, mf.2))

/-- Label tuples touched on the per-client counter for an API route:
`product(methods, status_code_families)` crossed with the client ids. -/
def apiCombos (methods : List String) (path : String) (fams : List String)
    (client_ids : List String) : List ApiKey :=
  (methods.product fams).flatMap
    (fun mf => client_ids.map (fun cid => (mf.1, path, cid, mf.2)))

/-- The body of the `for route in app.routes` loop. -/
def processRoute (openapi : OpenApi) (client_ids : List String)
    (s : MetricsState) (route : RouteInfo) : MetricsState :=
  let methods := route.methods
  let path := route.path_format
  let cs := routeStatusCodes openapi methods path
  let status_code_families := statusCodeFamilies cs.1
  let s1 := { s with requests := touchList 0 (requestCombos methods path cs.1) s.requests }
  let s2 := { s1 with requests_duration := touchList histZero (durationCombos methods path status_code_families) s1.requests_duration }
  if cs.2 then
    { s2 with api_requests := touchList 0 (apiCombos methods path status_code_families client_ids) s2.api_requests }
  else s2

/-- `init_metrics_labels`: `client_ids = get_active_api_client_ids(db) or
["none"]`, then every route is processed in order.  `activeClientIds` is the
result of the database query. -/
def init_metrics_labels (openapi : OpenApi) (activeClientIds : List String)
    (routes : List RouteInfo) (s : MetricsState) : MetricsState :=
  let client_ids := if activeClientIds = [] then ["none"] else activeClientIds
  routes.foldl (processRoute openapi client_ids) s

/-! ### get_metrics_reporting_registry

A `CollectorRegistry` is modelled by its object identity plus the list of
multiprocess collector directories attached to it.  `settingsResult` is the
outcome of `config.Settings()`: either the resolved
`prometheus_multiproc_dir` (possibly `None`), or a `ValidationError`.
`freshId` is the identity the allocator would give a newly constructed
registry, hence distinct from the identity of every live object. -/

structure CollectorRegistry where
  objId : ℕ
  collectors : List String
deriving DecidableEq

def get_metrics_reporting_registry (settingsResult : Except Unit (Option String))
    (process_registry : CollectorRegistry) (freshId : ℕ) : CollectorRegistry :=
  let prometheus_multiproc_dir :=
    match settingsResult with
    | Except.ok d => d
    | Except.error _ => none
  match prometheus_multiproc_dir with
  | some dir =>
      if dir = "" then process_registry
      else { objId := freshId, collectors := [dir] }
  | none => process_registry

/-! ### Derived views used by the theorems -/

/-- The effective client-id list: `get_active_api_client_ids(db) or ["none"]`. -/
def effectiveClientIds (activeClientIds : List String) : List String :=
  if activeClientIds = [] then ["none"] else activeClientIds

/-- The operations declared for a path (empty when the path is absent). -/
def opsOf (openapi : OpenApi) (path : String) : List (String × MethodSpec) :=
  match alookup path openapi with
  | some item => item.ops
  | none => []

/-- The requests-counter keys touched for one route. -/
def routeRequestKeys (openapi : OpenApi) (route : RouteInfo) :
    List RequestsKey :=
  requestCombos route.methods route.path_format
    (routeStatusCodes openapi route.methods route.path_format).1

/-- The duration-histogram keys touched for one route. -/
def routeDurationKeys (openapi : OpenApi) (route : RouteInfo) :
    List DurationKey :=
  durationCombos route.methods route.path_format
    (statusCodeFamilies
      (routeStatusCodes openapi route.methods route.path_format).1)

/-- The per-client-counter keys touched for one route (none unless the route
is an API route). -/
def routeApiKeys (openapi : OpenApi) (client_ids : List String)
    (route : RouteInfo) : List ApiKey :=
  if (routeStatusCodes openapi route.methods route.path_format).2 then
    apiCombos route.methods route.path_format
      (statusCodeFamilies
        (routeStatusCodes openapi route.methods route.path_format).1)
      client_ids
  else []

/-- Requests keys touched over a whole route list. -/
def allRequestKeys (openapi : OpenApi) (routes : List RouteInfo) :
    List RequestsKey :=
  routes.flatMap (routeRequestKeys openapi)

/-- Duration keys touched over a whole route list. -/
def allDurationKeys (openapi : OpenApi) (routes : List RouteInfo) :
    List DurationKey :=
  routes.flatMap (routeDurationKeys openapi)

/-- Per-client keys touched over a whole route list. -/
def allApiKeys (openapi : OpenApi) (client_ids : List String)
    (routes : List RouteInfo) : List ApiKey :=
  routes.flatMap (routeApiKeys openapi client_ids)

/-! ### Concrete inputs used to instantiate the theorems -/

/-- The context of spec property 4: an authenticated GET on `/ctms/{id}`
answered 200 in 0.02 seconds by client `abc`. -/
def sampleContext : Context :=
  { method := some "GET", path_template := some "/ctms/{id}"
    duration_s := some (1/50), status_code := some 200
    client_id := some "abc" }

/-- An unmatched-route context: no `path_template`, a 404 in 1 ms. -/
def unmatchedContext : Context :=
  { method := some "GET", path_template := none
    duration_s := some (1/1000), status_code := some 404
    client_id := none }

/-- `sampleContext` without an authenticated client. -/
def anonymousContext : Context :=
  { sampleContext with client_id := none }

/-- A fully initialized metrics dict with no series yet. -/
def freshMetrics : MetricsDict :=
  { names := standardNames, state := emptyState }

/-- A metrics dict whose only key is the sync-backlog counter: non-empty but
missing the request-facing metrics. -/
def crippledMetrics : MetricsDict :=
  { names := ["pending_acoustic_sync"], state := emptyState }

/-- A context whose `method` key is missing. -/
def methodlessContext : Context :=
  { sampleContext with method := none }

/-- The route `GET /` (docs redirect), absent from the OpenAPI paths. -/
def rootRoute : RouteInfo := { methods := ["GET"], path_format := "/" }

/-- The route `GET /ctms/{id}`. -/
def ctmsRoute : RouteInfo := { methods := ["GET"], path_format := "/ctms/{id}" }

/-- An OpenAPI fragment: `/ctms/{id}` declares an authenticated GET with
responses 200/401/404/422. -/
def sampleOpenApi : OpenApi :=
  [("/ctms/{id}",
    { ops := [("get", { responses := some [200, 401, 404, 422], security := true })] })]

/-- An OpenAPI fragment declaring only `post` on `/path`. -/
def postOnlyOpenApi : OpenApi :=
  [("/path", { ops := [("post", { responses := some [200], security := true })] })]

/-- The route `GET /path`, whose methods match nothing in
`postOnlyOpenApi`. -/
def getPathRoute : RouteInfo := { methods := ["GET"], path_format := "/path" }

/-! ### Lemmas about association-list maps -/

section AListLemmas

variable {α β : Type} [DecidableEq α]

theorem alookup_aupdate_self (k : α) (d : β) (f : β → β) (m : List (α × β)) :
    alookup k (aupdate k d f m) = some (f ((alookup k m).getD d)) := by
  induction m with
  | nil => simp [alookup, aupdate]
  | cons p t ih =>
      obtain ⟨a, b⟩ := p
      by_cases h : a = k
      · subst h
        simp [alookup, aupdate]
      · simp [alookup, aupdate, h, ih]

theorem alookup_aupdate_ne {k k' : α} (h : k' ≠ k) (d : β) (f : β → β)
    (m : List (α × β)) : alookup k' (aupdate k d f m) = alookup k' m := by
  induction m with
  | nil => simp [alookup, aupdate, Ne.symm h]
  | cons p t ih =>
      obtain ⟨a, b⟩ := p
      by_cases ha : a = k
      · subst ha
        simp [alookup, aupdate, Ne.symm h]
      · by_cases ha' : a = k'
        · subst ha'
          simp [alookup, aupdate, ha]
        · simp [alookup, aupdate, ha, ha', ih]

theorem alookup_touch_getD (k k' : α) (d : β) (m : List (α × β)) :
    (alookup k (touch d m k')).getD d = (alookup k m).getD d := by
  by_cases h : k' = k
  · subst h
    simp [touch, alookup_aupdate_self]
  · simp [touch, alookup_aupdate_ne (fun hh => h hh.symm)]

theorem touch_preserve {k : α} {v : β} {m : List (α × β)}
    (h : alookup k m = some v) (d : β) (k' : α) :
    alookup k (touch d m k') = some v := by
  by_cases hk : k' = k
  · subst hk
    simp [touch, alookup_aupdate_self, h]
  · simp [touch, alookup_aupdate_ne (fun hh => hk hh.symm), h]

theorem alookup_touch_value {k k' : α} {v : β} {d : β} {m : List (α × β)}
    (h : alookup k (touch d m k') = some v) :
    alookup k m = some v ∨ v = d := by
  by_cases hk : k' = k
  · rw [hk, touch, alookup_aupdate_self] at h
    simp only [id_eq, Option.some.injEq] at h
    cases hm : alookup k m with
    | none =>
        right
        rw [hm] at h
        simpa using h.symm
    | some w =>
        left
        rw [hm] at h
        simp only [Option.getD_some] at h
        rw [h]
  · rw [touch, alookup_aupdate_ne (Ne.symm hk)] at h
    exact Or.inl h

theorem touch_of_present {k : α} {m : List (α × β)}
    (h : (alookup k m).isSome) (d : β) : touch d m k = m := by
  induction m with
  | nil => simp [alookup] at h
  | cons p t ih =>
      obtain ⟨a, b⟩ := p
      by_cases ha : a = k
      · subst ha
        simp [touch, aupdate]
      · rw [alookup, if_neg ha] at h
        simpa [touch, aupdate, ha] using ih h

theorem touchList_preserve {k : α} {v : β} {m : List (α × β)}
    (h : alookup k m = some v) (d : β) (ks : List α) :
    alookup k (touchList d ks m) = some v := by
  induction ks generalizing m with
  | nil => simpa [touchList] using h
  | cons k₁ t ih => exact ih (touch_preserve h d k₁)

theorem touchList_getD (k : α) (d : β) (ks : List α) (m : List (α × β)) :
    (alookup k (touchList d ks m)).getD d = (alookup k m).getD d := by
  induction ks generalizing m with
  | nil => simp [touchList]
  | cons k₁ t ih =>
      calc (alookup k (touchList d (k₁ :: t) m)).getD d
          = (alookup k (touch d m k₁)).getD d := ih (touch d m k₁)
        _ = (alookup k m).getD d := alookup_touch_getD k k₁ d m

theorem alookup_touchList_mem {k : α} {ks : List α} (h : k ∈ ks) (d : β)
    (m : List (α × β)) :
    alookup k (touchList d ks m) = some ((alookup k m).getD d) := by
  induction ks generalizing m with
  | nil => cases h
  | cons k₁ t ih =>
      by_cases hk : k ∈ t
      · calc alookup k (touchList d (k₁ :: t) m)
            = some ((alookup k (touch d m k₁)).getD d) := ih hk (touch d m k₁)
          _ = some ((alookup k m).getD d) := by
              rw [alookup_touch_getD]
      · have hk1 : k = k₁ := by
          rcases List.mem_cons.mp h with h' | h'
          · exact h'
          · exact absurd h' hk
        subst hk1
        have hself : alookup k (touch d m k) = some ((alookup k m).getD d) := by
          simp [touch, alookup_aupdate_self]
        exact touchList_preserve hself d t

theorem touchList_present {k : α} {ks : List α} (h : k ∈ ks) (d : β)
    (m : List (α × β)) : (alookup k (touchList d ks m)).isSome := by
  rw [alookup_touchList_mem h d m]
  rfl

theorem touchList_of_all_present {ks : List α} {m : List (α × β)}
    (h : ∀ k ∈ ks, (alookup k m).isSome) (d : β) : touchList d ks m = m := by
  induction ks with
  | nil => rfl
  | cons k₁ t ih =>
      have h1 : touch d m k₁ = m := touch_of_present (h k₁ (by simp)) d
      calc touchList d (k₁ :: t) m = touchList d t (touch d m k₁) := rfl
        _ = touchList d t m := by rw [h1]
        _ = m := ih (fun k hk => h k (List.mem_cons_of_mem k₁ hk))

theorem touchList_idem (d : β) (ks : List α) (m : List (α × β)) :
    touchList d ks (touchList d ks m) = touchList d ks m :=
  touchList_of_all_present (fun _ hk => touchList_present hk d m) d

theorem alookup_touchList_value {k : α} {v d : β} {ks : List α}
    {m : List (α × β)} (h : alookup k (touchList d ks m) = some v) :
    alookup k m = some v ∨ v = d := by
  induction ks generalizing m with
  | nil => exact Or.inl h
  | cons k₁ t ih =>
      rcases @ih (touch d m k₁) h with h' | h'
      · exact alookup_touch_value h'
      · exact Or.inr h'

theorem touchList_append (d : β) (a b : List α) (m : List (α × β)) :
    touchList d (a ++ b) m = touchList d b (touchList d a m) :=
  List.foldl_append _ _ _ _

end AListLemmas

/-! ### Decomposition of `init_metrics_labels` into per-field touch lists -/

theorem processRoute_requests (openapi : OpenApi) (client_ids : List String)
    (s : MetricsState) (route : RouteInfo) :
    (processRoute openapi client_ids s route).requests =
      touchList 0 (routeRequestKeys openapi route) s.requests := by
  unfold processRoute routeRequestKeys
  by_cases h : (routeStatusCodes openapi route.methods route.path_format).2 <;>
    simp [h]

theorem processRoute_duration (openapi : OpenApi) (client_ids : List String)
    (s : MetricsState) (route : RouteInfo) :
    (processRoute openapi client_ids s route).requests_duration =
      touchList histZero (routeDurationKeys openapi route)
        s.requests_duration := by
  unfold processRoute routeDurationKeys
  by_cases h : (routeStatusCodes openapi route.methods route.path_format).2 <;>
    simp [h]

theorem processRoute_api (openapi : OpenApi) (client_ids : List String)
    (s : MetricsState) (route : RouteInfo) :
    (processRoute openapi client_ids s route).api_requests =
      touchList 0 (routeApiKeys openapi client_ids route) s.api_requests := by
  unfold processRoute routeApiKeys
  by_cases h : (routeStatusCodes openapi route.methods route.path_format).2 <;>
    simp [h, touchList]

theorem foldl_processRoute_requests (openapi : OpenApi)
    (client_ids : List String) (routes : List RouteInfo) (s : MetricsState) :
    (routes.foldl (processRoute openapi client_ids) s).requests =
      touchList 0 (allRequestKeys openapi routes) s.requests := by
  induction routes generalizing s with
  | nil => rfl
  | cons r rs ih =>
      calc (List.foldl (processRoute openapi client_ids)
              (processRoute openapi client_ids s r) rs).requests
          = touchList 0 (allRequestKeys openapi rs)
              (processRoute openapi client_ids s r).requests := ih _
        _ = touchList 0 (allRequestKeys openapi rs)
              (touchList 0 (routeRequestKeys openapi r) s.requests) := by
            rw [processRoute_requests]
        _ = touchList 0 (routeRequestKeys openapi r ++
              allRequestKeys openapi rs) s.requests := by
            rw [touchList_append]
        _ = touchList 0 (allRequestKeys openapi (r :: rs)) s.requests := by
            simp [allRequestKeys]

theorem foldl_processRoute_duration (openapi : OpenApi)
    (client_ids : List String) (routes : List RouteInfo) (s : MetricsState) :
    (routes.foldl (processRoute openapi client_ids) s).requests_duration =
      touchList histZero (allDurationKeys openapi routes)
        s.requests_duration := by
  induction routes generalizing s with
  | nil => rfl
  | cons r rs ih =>
      calc (List.foldl (processRoute openapi client_ids)
              (processRoute openapi client_ids s r) rs).requests_duration
          = touchList histZero (allDurationKeys openapi rs)
              (processRoute openapi client_ids s r).requests_duration := ih _
        _ = touchList histZero (allDurationKeys openapi rs)
              (touchList histZero (routeDurationKeys openapi r)
                s.requests_duration) := by
            rw [processRoute_duration]
        _ = touchList histZero (routeDurationKeys openapi r ++
              allDurationKeys openapi rs) s.requests_duration := by
            rw [touchList_append]
        _ = touchList histZero (allDurationKeys openapi (r :: rs))
              s.requests_duration := by
            simp [allDurationKeys]

theorem foldl_processRoute_api (openapi : OpenApi) (client_ids : List String)
    (routes : List RouteInfo) (s : MetricsState) :
    (routes.foldl (processRoute openapi client_ids) s).api_requests =
      touchList 0 (allApiKeys openapi client_ids routes) s.api_requests := by
  induction routes generalizing s with
  | nil => rfl
  | cons r rs ih =>
      calc (List.foldl (processRoute openapi client_ids)
              (processRoute openapi client_ids s r) rs).api_requests
          = touchList 0 (allApiKeys openapi client_ids rs)
              (processRoute openapi client_ids s r).api_requests := ih _
        _ = touchList 0 (allApiKeys openapi client_ids rs)
              (touchList 0 (routeApiKeys openapi client_ids r)
                s.api_requests) := by
            rw [processRoute_api]
        _ = touchList 0 (routeApiKeys openapi client_ids r ++
              allApiKeys openapi client_ids rs) s.api_requests := by
            rw [touchList_append]
        _ = touchList 0 (allApiKeys openapi client_ids (r :: rs))
              s.api_requests := by
            simp [allApiKeys]

theorem init_metrics_labels_requests (openapi : OpenApi)
    (activeClientIds : List String) (routes : List RouteInfo)
    (s : MetricsState) :
    (init_metrics_labels openapi activeClientIds routes s).requests =
      touchList 0 (allRequestKeys openapi routes) s.requests :=
  foldl_processRoute_requests openapi _ routes s

theorem init_metrics_labels_duration (openapi : OpenApi)
    (activeClientIds : List String) (routes : List RouteInfo)
    (s : MetricsState) :
    (init_metrics_labels openapi activeClientIds routes s).requests_duration =
      touchList histZero (allDurationKeys openapi routes)
        s.requests_duration :=
  foldl_processRoute_duration openapi _ routes s

theorem init_metrics_labels_api (openapi : OpenApi)
    (activeClientIds : List String) (routes : List RouteInfo)
    (s : MetricsState) :
    (init_metrics_labels openapi activeClientIds routes s).api_requests =
      touchList 0 (allApiKeys openapi (effectiveClientIds activeClientIds)
        routes) s.api_requests :=
  foldl_processRoute_api openapi _ routes s

/-! ### Claim theorems -/

/-- C3: with a (truthy) multiprocess directory configured,
`get_metrics_reporting_registry` returns a registry distinct from the
passed-in one on every call — a fresh registry (identity `freshId`, which the
allocator guarantees differs from every live object's) with one multiprocess
collector attached — and two calls return two distinct registries; with no
directory configured it returns the passed-in registry itself, unchanged. -/
theorem get_metrics_reporting_registry_identity (r : CollectorRegistry)
    (dir : String) (fid₁ fid₂ : ℕ) (hdir : dir ≠ "") (h₁ : fid₁ ≠ r.objId)
    (h₂ : fid₂ ≠ r.objId) (hne : fid₁ ≠ fid₂) :
    get_metrics_reporting_registry (Except.ok (some dir)) r fid₁ ≠ r ∧
    get_metrics_reporting_registry (Except.ok (some dir)) r fid₂ ≠ r ∧
    (get_metrics_reporting_registry (Except.ok (some dir)) r fid₁).collectors
      = [dir] ∧
    get_metrics_reporting_registry (Except.ok (some dir)) r fid₁ ≠
      get_metrics_reporting_registry (Except.ok (some dir)) r fid₂ ∧
    get_metrics_reporting_registry (Except.ok none) r fid₁ = r := by
  refine ⟨?_, ?_, ?_, ?_, rfl⟩
  · intro h
    have h' := congrArg CollectorRegistry.objId h
    simp [get_metrics_reporting_registry, hdir] at h'
    exact h₁ h'
  · intro h
    have h' := congrArg CollectorRegistry.objId h
    simp [get_metrics_reporting_registry, hdir] at h'
    exact h₂ h'
  · simp [get_metrics_reporting_registry, hdir]
  · intro h
    have h' := congrArg CollectorRegistry.objId h
    simp [get_metrics_reporting_registry, hdir] at h'
    exact hne h'

/-- Witness for C3 at a concrete registry, directory and fresh ids. -/
theorem get_metrics_reporting_registry_identity_witness :
    ("/tmp/metrics" : String) ≠ "" ∧ (1 : ℕ) ≠ 0 ∧ (2 : ℕ) ≠ 0 ∧
      (1 : ℕ) ≠ 2 ∧
    (get_metrics_reporting_registry (Except.ok (some "/tmp/metrics"))
        ⟨0, []⟩ 1 ≠ ⟨0, []⟩ ∧
      get_metrics_reporting_registry (Except.ok (some "/tmp/metrics"))
        ⟨0, []⟩ 2 ≠ ⟨0, []⟩ ∧
      (get_metrics_reporting_registry (Except.ok (some "/tmp/metrics"))
        ⟨0, []⟩ 1).collectors = ["/tmp/metrics"] ∧
      get_metrics_reporting_registry (Except.ok (some "/tmp/metrics"))
        ⟨0, []⟩ 1 ≠
        get_metrics_reporting_registry (Except.ok (some "/tmp/metrics"))
          ⟨0, []⟩ 2 ∧
      get_metrics_reporting_registry (Except.ok none) ⟨0, []⟩ 1 = ⟨0, []⟩) :=
  ⟨by decide, by decide, by decide, by decide,
    get_metrics_reporting_registry_identity ⟨0, []⟩ "/tmp/metrics" 1 2
      (by decide) (by decide) (by decide) (by decide)⟩

/-- C9: a `ValidationError` raised while resolving the settings is caught
inside `get_metrics_reporting_registry`, treated exactly like "no
multiprocess directory configured", and the passed-in registry is returned
unchanged; no error reaches the caller (the function is total). -/
theorem get_metrics_reporting_registry_settings_error (r : CollectorRegistry)
    (fid : ℕ) :
    get_metrics_reporting_registry (Except.error ()) r fid = r ∧
    get_metrics_reporting_registry (Except.error ()) r fid =
      get_metrics_reporting_registry (Except.ok none) r fid :=
  ⟨rfl, rfl⟩

/-- C5: `emit_response_metrics` is a complete no-op — the metrics dict is
returned unchanged, no series created or modified — whenever the metrics
mapping is empty or the context's `path_template` is absent. -/
theorem emit_response_metrics_noop (context : Context) (metrics : MetricsDict)
    (h : metrics.names = [] ∨ context.path_template = none) :
    emit_response_metrics context metrics = Except.ok metrics := by
  rcases h with h | h
  · simp [emit_response_metrics, h]
  · by_cases hn : metrics.names = [] <;>
      simp [emit_response_metrics, hn, h]

/-- Witness for C5: the unmatched 404 context of the spec against a fully
initialized metrics dict. -/
theorem emit_response_metrics_noop_witness :
    (freshMetrics.names = [] ∨ unmatchedContext.path_template = none) ∧
    emit_response_metrics unmatchedContext freshMetrics =
      Except.ok freshMetrics :=
  ⟨Or.inr rfl,
    emit_response_metrics_noop unmatchedContext freshMetrics (Or.inr rfl)⟩

/-- C4 counterexample: the claim "emit_response_metrics never raises, for
every context and every metrics mapping" is false — a non-empty metrics
mapping that lacks the `requests` key makes the emitter raise `KeyError`
(modelled as `Except.error`) even on a fully well-formed context. -/
theorem emit_response_metrics_raises :
    emit_response_metrics sampleContext crippledMetrics = Except.error () :=
  rfl

/-- Successful emission without a (truthy) client id: the requests counter
is incremented, the duration histogram observed, the per-client counter
untouched. -/
theorem emit_ok_no_client (context : Context) (metrics : MetricsDict)
    {method pt : String} {dur : ℚ} {code : ℕ}
    (hm : context.method = some method)
    (hd : context.duration_s = some dur)
    (hs : context.status_code = some code)
    (hp : context.path_template = some pt) (hptne : pt ≠ "")
    (hcid : context.client_id = none ∨ context.client_id = some "")
    (hne : metrics.names ≠ []) (hr : "requests" ∈ metrics.names)
    (hdur : "requests_duration" ∈ metrics.names) :
    emit_response_metrics context metrics = Except.ok
      { metrics with state :=
        { requests := aupdate (method, pt, code, statusFamily code) 0 (· + 1)
            metrics.state.requests
          requests_duration := aupdate (method, pt, statusFamily code)
            histZero (observeOne dur) metrics.state.requests_duration
          api_requests := metrics.state.api_requests } } := by
  obtain ⟨m, p, d, s, c⟩ := context
  simp only [Context.mk.injEq] at hm hd hs hp
  subst hm hd hs hp
  rcases hcid with hc | hc <;>
    simp only [Context.mk.injEq] at hc <;> subst hc <;>
    simp [emit_response_metrics, hne, hptne, hr, hdur]

/-- Successful emission with a truthy client id: additionally the
per-client counter is incremented. -/
theorem emit_ok_with_client (context : Context) (metrics : MetricsDict)
    {method pt cid : String} {dur : ℚ} {code : ℕ}
    (hm : context.method = some method)
    (hd : context.duration_s = some dur)
    (hs : context.status_code = some code)
    (hp : context.path_template = some pt) (hptne : pt ≠ "")
    (hc : context.client_id = some cid) (hcne : cid ≠ "")
    (hne : metrics.names ≠ []) (hr : "requests" ∈ metrics.names)
    (hdur : "requests_duration" ∈ metrics.names)
    (hapi : "api_requests" ∈ metrics.names) :
    emit_response_metrics context metrics = Except.ok
      { metrics with state :=
        { requests := aupdate (method, pt, code, statusFamily code) 0 (· + 1)
            metrics.state.requests
          requests_duration := aupdate (method, pt, statusFamily code)
            histZero (observeOne dur) metrics.state.requests_duration
          api_requests := aupdate (method, pt, cid, statusFamily code) 0
            (· + 1) metrics.state.api_requests } } := by
  obtain ⟨m, p, d, s, c⟩ := context
  simp only [Context.mk.injEq] at hm hd hs hp hc
  subst hm hd hs hp hc
  simp [emit_response_metrics, hne, hptne, hcne, hr, hdur, hapi]

/-- C4 (amended): for every context providing the `method`, `duration_s` and
`status_code` keys and every metrics mapping that is either empty or
contains the `requests`, `requests_duration` and `api_requests` metrics,
`emit_response_metrics` raises no exception to its caller. -/
theorem emit_response_metrics_no_raise (context : Context)
    (metrics : MetricsDict) (hm : context.method.isSome)
    (hd : context.duration_s.isSome) (hs : context.status_code.isSome)
    (hn : metrics.names = [] ∨ ("requests" ∈ metrics.names ∧
      "requests_duration" ∈ metrics.names ∧ "api_requests" ∈ metrics.names)) :
    ∃ md', emit_response_metrics context metrics = Except.ok md' := by
  rcases hn with hn | ⟨hr, hdur, hapi⟩
  · exact ⟨metrics, by simp [emit_response_metrics, hn]⟩
  · obtain ⟨method, hm⟩ := Option.isSome_iff_exists.mp hm
    obtain ⟨dur, hd⟩ := Option.isSome_iff_exists.mp hd
    obtain ⟨code, hs⟩ := Option.isSome_iff_exists.mp hs
    by_cases hne : metrics.names = []
    · exact ⟨metrics, by simp [emit_response_metrics, hne]⟩
    · cases hp : context.path_template with
      | none =>
          exact ⟨metrics, by simp [emit_response_metrics, hne, hp]⟩
      | some pt =>
          by_cases hptne : pt = ""
          · subst hptne
            exact ⟨metrics, by simp [emit_response_metrics, hne, hp]⟩
          · cases hc : context.client_id with
            | none =>
                exact ⟨_, emit_ok_no_client context metrics hm hd hs hp
                  hptne (Or.inl hc) hne hr hdur⟩
            | some cid =>
                by_cases hcid : cid = ""
                · subst hcid
                  exact ⟨_, emit_ok_no_client context metrics hm hd hs hp
                    hptne (Or.inr hc) hne hr hdur⟩
                · exact ⟨_, emit_ok_with_client context metrics hm hd hs hp
                    hptne hc hcid hne hr hdur hapi⟩

/-- Witness for C4 (amended): the sample context and a fresh standard
metrics dict. -/
theorem emit_response_metrics_no_raise_witness :
    (sampleContext.method.isSome ∧ sampleContext.duration_s.isSome ∧
      sampleContext.status_code.isSome ∧
      ("requests" ∈ freshMetrics.names ∧
        "requests_duration" ∈ freshMetrics.names ∧
        "api_requests" ∈ freshMetrics.names)) ∧
    ∃ md', emit_response_metrics sampleContext freshMetrics =
      Except.ok md' :=
  ⟨⟨rfl, rfl, rfl, by decide, by decide, by decide⟩,
    emit_response_metrics_no_raise sampleContext freshMetrics rfl rfl rfl
      (Or.inr ⟨by decide, by decide, by decide⟩)⟩

theorem statusFamily_200 : statusFamily 200 = "2xx" := rfl

/-- `0.02` seconds falls in the `0.05` bucket (index 1 of the bounds). -/
theorem bucketIndex_one_fiftieth : bucketIndex (1/50) = 1 := by
  unfold bucketIndex histBounds
  norm_num [List.findIdx_cons]

/-- C1: emitting the sample context (GET `/ctms/{id}`, 200, 0.02 s, client
`abc`) against initialized metrics increments the request-count series
(GET, /ctms/{id}, 200, 2xx) by exactly 1, increments the 0.05-bucket count
of the duration series (GET, /ctms/{id}, 2xx) by 1 and its sum by 0.02, and
increments the per-client series (GET, /ctms/{id}, abc, 2xx) by exactly
1. -/
theorem emit_response_metrics_sample (metrics : MetricsDict)
    (h : metrics.names = standardNames) :
    ∃ md', emit_response_metrics sampleContext metrics = Except.ok md' ∧
      counterVal md'.state.requests ("GET", "/ctms/{id}", 200, "2xx") =
        counterVal metrics.state.requests ("GET", "/ctms/{id}", 200, "2xx")
          + 1 ∧
      histBounds.get? 1 = some (1/20) ∧
      ((alookup ("GET", "/ctms/{id}", "2xx")
          md'.state.requests_duration).getD histZero).buckets 1 =
        ((alookup ("GET", "/ctms/{id}", "2xx")
          metrics.state.requests_duration).getD histZero).buckets 1 + 1 ∧
      ((alookup ("GET", "/ctms/{id}", "2xx")
          md'.state.requests_duration).getD histZero).sum =
        ((alookup ("GET", "/ctms/{id}", "2xx")
          metrics.state.requests_duration).getD histZero).sum + 1/50 ∧
      counterVal md'.state.api_requests ("GET", "/ctms/{id}", "abc", "2xx") =
        counterVal metrics.state.api_requests
          ("GET", "/ctms/{id}", "abc", "2xx") + 1 := by
  have hne : metrics.names ≠ [] := by rw [h]; decide
  have hr : "requests" ∈ metrics.names := by rw [h]; decide
  have hdur : "requests_duration" ∈ metrics.names := by rw [h]; decide
  have hapi : "api_requests" ∈ metrics.names := by rw [h]; decide
  have heq := emit_ok_with_client sampleContext metrics
    rfl rfl rfl rfl (by decide) rfl (by decide)
    hne hr hdur hapi
  rw [statusFamily_200] at heq
  refine ⟨_, heq, ?_, rfl, ?_, ?_, ?_⟩
  · simp [counterVal, alookup_aupdate_self]
  · rw [alookup_aupdate_self]
    simp only [Option.getD_some, observeOne]
    rw [bucketIndex_one_fiftieth]
    simp
  · rw [alookup_aupdate_self]
    simp [observeOne]
  · simp [counterVal, alookup_aupdate_self]

/-- Witness for C1: the fresh standard metrics dict. -/
theorem emit_response_metrics_sample_witness :
    freshMetrics.names = standardNames ∧
    (∃ md', emit_response_metrics sampleContext freshMetrics =
        Except.ok md' ∧
      counterVal md'.state.requests ("GET", "/ctms/{id}", 200, "2xx") =
        counterVal freshMetrics.state.requests
          ("GET", "/ctms/{id}", 200, "2xx") + 1 ∧
      histBounds.get? 1 = some (1/20) ∧
      ((alookup ("GET", "/ctms/{id}", "2xx")
          md'.state.requests_duration).getD histZero).buckets 1 =
        ((alookup ("GET", "/ctms/{id}", "2xx")
          freshMetrics.state.requests_duration).getD histZero).buckets 1
          + 1 ∧
      ((alookup ("GET", "/ctms/{id}", "2xx")
          md'.state.requests_duration).getD histZero).sum =
        ((alookup ("GET", "/ctms/{id}", "2xx")
          freshMetrics.state.requests_duration).getD histZero).sum + 1/50 ∧
      counterVal md'.state.api_requests ("GET", "/ctms/{id}", "abc", "2xx") =
        counterVal freshMetrics.state.api_requests
          ("GET", "/ctms/{id}", "abc", "2xx") + 1) :=
  ⟨rfl, emit_response_metrics_sample freshMetrics rfl⟩

/-- C6: for a context with a present (truthy) `path_template` and no client
id, `emit_response_metrics` increments the request-count series and
observes into the duration series, but returns the per-client series map
unchanged — no per-client series updated or created. -/
theorem emit_response_metrics_no_client (metrics : MetricsDict)
    (method pt : String) (dur : ℚ) (code : ℕ)
    (h : metrics.names = standardNames) (hpt : pt ≠ "") :
    ∃ md', emit_response_metrics
        ⟨some method, some pt, some dur, some code, none⟩ metrics =
        Except.ok md' ∧
      counterVal md'.state.requests (method, pt, code, statusFamily code) =
        counterVal metrics.state.requests (method, pt, code,
          statusFamily code) + 1 ∧
      alookup (method, pt, statusFamily code) md'.state.requests_duration =
        some (observeOne dur ((alookup (method, pt, statusFamily code)
          metrics.state.requests_duration).getD histZero)) ∧
      md'.state.api_requests = metrics.state.api_requests := by
  have hne : metrics.names ≠ [] := by rw [h]; decide
  have hr : "requests" ∈ metrics.names := by rw [h]; decide
  have hdur : "requests_duration" ∈ metrics.names := by rw [h]; decide
  have heq := emit_ok_no_client
    ⟨some method, some pt, some dur, some code, none⟩
    metrics rfl rfl rfl rfl hpt (Or.inl rfl) hne hr hdur
  refine ⟨_, heq, ?_, ?_, rfl⟩
  · simp [counterVal, alookup_aupdate_self]
  · rw [alookup_aupdate_self]

/-- Witness for C6: the anonymous sample context against fresh metrics. -/
theorem emit_response_metrics_no_client_witness :
    freshMetrics.names = standardNames ∧ ("/ctms/{id}" : String) ≠ "" ∧
    (∃ md', emit_response_metrics
        ⟨some "GET", some "/ctms/{id}", some (1/50), some 200, none⟩
        freshMetrics = Except.ok md' ∧
      counterVal md'.state.requests ("GET", "/ctms/{id}", 200,
        statusFamily 200) =
        counterVal freshMetrics.state.requests ("GET", "/ctms/{id}", 200,
          statusFamily 200) + 1 ∧
      alookup ("GET", "/ctms/{id}", statusFamily 200)
          md'.state.requests_duration =
        some (observeOne (1/50) ((alookup ("GET", "/ctms/{id}",
          statusFamily 200)
          freshMetrics.state.requests_duration).getD histZero)) ∧
      md'.state.api_requests = freshMetrics.state.api_requests) :=
  ⟨rfl, by decide,
    emit_response_metrics_no_client freshMetrics "GET" "/ctms/{id}" (1/50)
      200 rfl (by decide)⟩

/-- C2: `init_metrics_labels` is idempotent — a second call with identical
inputs leaves the metrics state exactly as after the first call (so the set
of series present after two calls equals the set after one call), and every
series pre-touched from an empty state is left at its zero value (counters
at 0, histograms with zero sum and zero bucket counts): touching does not
increment. -/
theorem init_metrics_labels_idem (openapi : OpenApi)
    (activeClientIds : List String) (routes : List RouteInfo)
    (s : MetricsState) :
    init_metrics_labels openapi activeClientIds routes
        (init_metrics_labels openapi activeClientIds routes s) =
      init_metrics_labels openapi activeClientIds routes s ∧
    (∀ k v, alookup k (init_metrics_labels openapi activeClientIds routes
        emptyState).requests = some v → v = 0) ∧
    (∀ k v, alookup k (init_metrics_labels openapi activeClientIds routes
        emptyState).requests_duration = some v → v = histZero) ∧
    (∀ k v, alookup k (init_metrics_labels openapi activeClientIds routes
        emptyState).api_requests = some v → v = 0) := by
  refine ⟨?_, ?_, ?_, ?_⟩
  · apply MetricsState.ext
    · rw [init_metrics_labels_requests, init_metrics_labels_requests,
        touchList_idem]
    · rw [init_metrics_labels_duration, init_metrics_labels_duration,
        touchList_idem]
    · rw [init_metrics_labels_api, init_metrics_labels_api, touchList_idem]
  · intro k v h
    rw [init_metrics_labels_requests] at h
    rcases alookup_touchList_value h with h' | h'
    · simp [emptyState, alookup] at h'
    · exact h'
  · intro k v h
    rw [init_metrics_labels_duration] at h
    rcases alookup_touchList_value h with h' | h'
    · simp [emptyState, alookup] at h'
    · exact h'
  · intro k v h
    rw [init_metrics_labels_api] at h
    rcases alookup_touchList_value h with h' | h'
    · simp [emptyState, alookup] at h'
    · exact h'

/-- Witness for C2: one authenticated route, no active clients; the
pre-touched counter, histogram and per-client series are read back at
value zero. -/
theorem init_metrics_labels_idem_witness :
    (init_metrics_labels sampleOpenApi [] [ctmsRoute]
        (init_metrics_labels sampleOpenApi [] [ctmsRoute] emptyState) =
      init_metrics_labels sampleOpenApi [] [ctmsRoute] emptyState) ∧
    (0 : ℕ) = 0 ∧ histZero = histZero :=
  ⟨(init_metrics_labels_idem sampleOpenApi [] [ctmsRoute] emptyState).1,
    (init_metrics_labels_idem sampleOpenApi [] [ctmsRoute] emptyState).2.1
      ("GET", "/ctms/{id}", 200, "2xx") 0 (by decide),
    (init_metrics_labels_idem sampleOpenApi [] [ctmsRoute] emptyState).2.2.1
      ("GET", "/ctms/{id}", "2xx") histZero (by rfl)⟩

/-- The `is_api` accumulator of the spec-collection loop is an `any` over
the operations. -/
theorem collectRoute_foldl_snd (methods : List String) (path : String)
    (ops : List (String × MethodSpec)) (acc : List ℕ × Bool) :
    (ops.foldl
      (fun acc op =>
        if pyUpper op.1 ∈ methods then
          (acc.1 ++ op.2.responses.getD [200],
            acc.2 || (op.2.security && !pyEndsWith path "from_pubsub"))
        else acc)
      acc).2 =
      (acc.2 || ops.any (fun op => decide (pyUpper op.1 ∈ methods) &&
        (op.2.security && !pyEndsWith path "from_pubsub"))) := by
  induction ops generalizing acc with
  | nil => simp
  | cons op t ih =>
      by_cases hp : pyUpper op.1 ∈ methods
      · simp [List.foldl_cons, hp, ih, Bool.or_assoc]
      · simp [List.foldl_cons, hp, ih]

/-- `is_api` holds exactly when some declared operation matching one of the
route's methods carries a `security` requirement and the path does not end
in `from_pubsub`. -/
theorem routeStatusCodes_isApi (openapi : OpenApi) (methods : List String)
    (path : String) :
    (routeStatusCodes openapi methods path).2 = true ↔
      ((∃ op ∈ opsOf openapi path,
          pyUpper op.1 ∈ methods ∧ op.2.security = true) ∧
        pyEndsWith path "from_pubsub" = false) := by
  unfold routeStatusCodes opsOf
  cases hl : alookup path openapi with
  | none => simp
  | some item =>
      obtain ⟨ops⟩ := item
      cases ops with
      | nil => simp
      | cons op t =>
          simp only [List.isEmpty_cons, if_false, Bool.false_eq_true,
            ↓reduceIte]
          rw [collectRoute, collectRoute_foldl_snd]
          simp only [Bool.false_or, List.any_eq_true, Bool.and_eq_true,
            decide_eq_true_eq, Bool.not_eq_true']
          constructor
          · rintro ⟨o, ho, hP, hQ, hC⟩
            exact ⟨⟨o, ho, hP, hQ⟩, hC⟩
          · rintro ⟨⟨o, ho, hP, hQ⟩, hC⟩
            exact ⟨o, ho, hP, hQ, hC⟩

/-- C7: a route counts as an API route exactly when the OpenAPI spec marks
at least one of its matching methods as requiring authentication
(`security` present) and the path is not the pubsub ingestion path (suffix
`from_pubsub`); for such a route one per-client series is pre-created (at
its previous-or-zero value) for every element of
methods × status_code_families × active client ids, and an empty
active-client-id list is replaced by the placeholder `["none"]`. -/
theorem init_metrics_labels_api_route (openapi : OpenApi)
    (activeClientIds : List String) (routes : List RouteInfo)
    (s : MetricsState) (route : RouteInfo) (hr : route ∈ routes) :
    ((routeStatusCodes openapi route.methods route.path_format).2 = true ↔
      ((∃ op ∈ opsOf openapi route.path_format,
          pyUpper op.1 ∈ route.methods ∧ op.2.security = true) ∧
        pyEndsWith route.path_format "from_pubsub" = false)) ∧
    effectiveClientIds [] = ["none"] ∧
    ((routeStatusCodes openapi route.methods route.path_format).2 = true →
      ∀ m ∈ route.methods,
        ∀ f ∈ statusCodeFamilies
            (routeStatusCodes openapi route.methods route.path_format).1,
          ∀ cid ∈ effectiveClientIds activeClientIds,
            alookup (m, route.path_format, cid, f)
                (init_metrics_labels openapi activeClientIds routes
                  s).api_requests =
              some ((alookup (m, route.path_format, cid, f)
                s.api_requests).getD 0)) := by
  refine ⟨routeStatusCodes_isApi openapi route.methods route.path_format,
    rfl, ?_⟩
  intro hapi m hm f hf cid hcid
  rw [init_metrics_labels_api]
  apply alookup_touchList_mem
  apply List.mem_flatMap.mpr
  refine ⟨route, hr, ?_⟩
  rw [routeApiKeys, if_pos hapi]
  apply List.mem_flatMap.mpr
  refine ⟨(m, f), ?_, List.mem_map.mpr ⟨cid, hcid, rfl⟩⟩
  exact List.mem_product.mpr ⟨hm, hf⟩

/-- Witness for C7: the authenticated `/ctms/{id}` route with no active
clients pre-creates the placeholder per-client series at zero. -/
theorem init_metrics_labels_api_route_witness :
    ctmsRoute ∈ [ctmsRoute] ∧
    alookup ("GET", "/ctms/{id}", "none", "2xx")
        (init_metrics_labels sampleOpenApi [] [ctmsRoute]
          emptyState).api_requests =
      some ((alookup ("GET", "/ctms/{id}", "none", "2xx")
        emptyState.api_requests).getD 0) :=
  ⟨by decide,
    (init_metrics_labels_api_route sampleOpenApi [] [ctmsRoute] emptyState
        ctmsRoute (by decide)).2.2 (by decide) "GET" (by decide) "2xx"
      (by decide) "none" (by decide)⟩

/-- The families of a single status code. -/
theorem statusCodeFamilies_single (c : ℕ) :
    statusCodeFamilies [c] = [statusFamily c] := rfl

/-- C8: for a route whose path is absent from the OpenAPI paths, the
status-code set is exactly `[307]` when the path is the root path `/` and
exactly `[200]` otherwise (and the route is not an API route); the
request-count and duration series pre-created for the route are derived
from that single synthetic code. -/
theorem init_metrics_labels_unknown_path (openapi : OpenApi)
    (activeClientIds : List String) (routes : List RouteInfo)
    (s : MetricsState) (route : RouteInfo) (hr : route ∈ routes)
    (habs : alookup route.path_format openapi = none) :
    routeStatusCodes openapi route.methods route.path_format =
      ((if route.path_format = "/" then [307] else [200]), false) ∧
    (∀ m ∈ route.methods,
      alookup (m, route.path_format,
          (if route.path_format = "/" then 307 else 200),
          statusFamily (if route.path_format = "/" then 307 else 200))
        (init_metrics_labels openapi activeClientIds routes s).requests =
        some ((alookup (m, route.path_format,
          (if route.path_format = "/" then 307 else 200),
          statusFamily (if route.path_format = "/" then 307 else 200))
          s.requests).getD 0) ∧
      alookup (m, route.path_format,
          statusFamily (if route.path_format = "/" then 307 else 200))
        (init_metrics_labels openapi activeClientIds routes
          s).requests_duration =
        some ((alookup (m, route.path_format,
          statusFamily (if route.path_format = "/" then 307 else 200))
          s.requests_duration).getD histZero)) := by
  have h1 : routeStatusCodes openapi route.methods route.path_format =
      ((if route.path_format = "/" then [307] else [200]), false) := by
    unfold routeStatusCodes
    rw [habs]
  refine ⟨h1, ?_⟩
  intro m hm
  constructor
  · rw [init_metrics_labels_requests]
    apply alookup_touchList_mem
    apply List.mem_flatMap.mpr
    refine ⟨route, hr, ?_⟩
    rw [routeRequestKeys, h1]
    unfold requestCombos
    apply List.mem_map.mpr
    refine ⟨(m, if route.path_format = "/" then 307 else 200), ?_, rfl⟩
    apply List.mem_product.mpr
    refine ⟨hm, ?_⟩
    by_cases hp : route.path_format = "/" <;> simp [hp]
  · rw [init_metrics_labels_duration]
    apply alookup_touchList_mem
    apply List.mem_flatMap.mpr
    refine ⟨route, hr, ?_⟩
    rw [routeDurationKeys, h1]
    by_cases hp : route.path_format = "/"
    · simp only [hp, ↓reduceIte]
      rw [statusCodeFamilies_single]
      unfold durationCombos
      exact List.mem_map.mpr
        ⟨(m, statusFamily 307), List.mem_product.mpr ⟨hm, by simp⟩, rfl⟩
    · simp only [hp, ↓reduceIte]
      rw [statusCodeFamilies_single]
      unfold durationCombos
      exact List.mem_map.mpr
        ⟨(m, statusFamily 200), List.mem_product.mpr ⟨hm, by simp⟩, rfl⟩

/-- Witness for C8: the docs route `GET /` against an empty OpenAPI paths
table gets the synthetic redirect code 307. -/
theorem init_metrics_labels_unknown_path_witness :
    rootRoute ∈ [rootRoute] ∧
    alookup ("/" : String) ([] : OpenApi) = none ∧
    (routeStatusCodes [] rootRoute.methods rootRoute.path_format =
      ((if rootRoute.path_format = "/" then [307] else [200]), false) ∧
    (alookup ("GET", rootRoute.path_format,
        (if rootRoute.path_format = "/" then 307 else 200),
        statusFamily (if rootRoute.path_format = "/" then 307 else 200))
      (init_metrics_labels [] [] [rootRoute] emptyState).requests =
      some ((alookup ("GET", rootRoute.path_format,
        (if rootRoute.path_format = "/" then 307 else 200),
        statusFamily (if rootRoute.path_format = "/" then 307 else 200))
        emptyState.requests).getD 0) ∧
      alookup ("GET", rootRoute.path_format,
          statusFamily (if rootRoute.path_format = "/" then 307 else 200))
        (init_metrics_labels [] [] [rootRoute] emptyState).requests_duration =
        some ((alookup ("GET", rootRoute.path_format,
          statusFamily (if rootRoute.path_format = "/" then 307 else 200))
          emptyState.requests_duration).getD histZero))) :=
  ⟨by decide, rfl,
    (init_metrics_labels_unknown_path [] [] [rootRoute] emptyState rootRoute
        (by decide) rfl).1,
    (init_metrics_labels_unknown_path [] [] [rootRoute] emptyState rootRoute
        (by decide) rfl).2 "GET" (by decide)⟩

/-- A fold of the collection loop over operations none of whose methods
match leaves the accumulator unchanged. -/
theorem collectRoute_foldl_nomatch (methods : List String) (path : String)
    (ops : List (String × MethodSpec)) (acc : List ℕ × Bool)
    (h : ∀ op ∈ ops, pyUpper op.1 ∉ methods) :
    ops.foldl
      (fun acc op =>
        if pyUpper op.1 ∈ methods then
          (acc.1 ++ op.2.responses.getD [200],
            acc.2 || (op.2.security && !pyEndsWith path "from_pubsub"))
        else acc)
      acc = acc := by
  induction ops generalizing acc with
  | nil => rfl
  | cons op t ih =>
      have hop := h op (by simp)
      rw [List.foldl_cons, if_neg hop]
      exact ih acc (fun o ho => h o (List.mem_cons_of_mem _ ho))

/-- `List.product` with an empty right factor is empty. -/
theorem product_nil_right {α β : Type} (l : List α) :
    l.product ([] : List β) = [] := by
  simp [List.product]

/-- C10: for a route whose path is declared in the OpenAPI spec (with a
non-empty operation table) but none of whose declared lowercase methods
matches the route's methods, the collected status-code set is empty and no
request-count, duration or per-client series is pre-created at all — the
metrics state is returned unchanged, with no synthetic 200 fallback. -/
theorem init_metrics_labels_no_matching_method (openapi : OpenApi)
    (activeClientIds : List String) (route : RouteInfo) (s : MetricsState)
    (item : PathItem)
    (hfound : alookup route.path_format openapi = some item)
    (hne : item.ops ≠ [])
    (hnomatch : ∀ op ∈ item.ops, pyUpper op.1 ∉ route.methods) :
    routeStatusCodes openapi route.methods route.path_format = ([], false) ∧
    init_metrics_labels openapi activeClientIds [route] s = s := by
  have hie : item.ops.isEmpty = false := by
    cases hops : item.ops with
    | nil => exact absurd hops hne
    | cons o t => simp
  have h1 : routeStatusCodes openapi route.methods route.path_format =
      ([], false) := by
    unfold routeStatusCodes
    rw [hfound]
    simp only [hie, Bool.false_eq_true, ↓reduceIte]
    rw [collectRoute, collectRoute_foldl_nomatch _ _ _ _ hnomatch]
  refine ⟨h1, ?_⟩
  unfold init_metrics_labels
  rw [List.foldl_cons, List.foldl_nil]
  unfold processRoute
  simp [h1, requestCombos, durationCombos, statusCodeFamilies,
    List.insertionSort, touchList, product_nil_right]

/-- Witness for C10: `GET /path` against a spec declaring only `post` on
that path creates no series at all. -/
theorem init_metrics_labels_no_matching_method_witness :
    alookup getPathRoute.path_format postOnlyOpenApi =
      some ⟨[("post", ⟨some [200], true⟩)]⟩ ∧
    ([("post", (⟨some [200], true⟩ : MethodSpec))] ≠
      ([] : List (String × MethodSpec))) ∧
    (routeStatusCodes postOnlyOpenApi getPathRoute.methods
        getPathRoute.path_format = ([], false) ∧
      init_metrics_labels postOnlyOpenApi [] [getPathRoute] emptyState =
        emptyState) :=
  ⟨rfl, by decide,
    init_metrics_labels_no_matching_method postOnlyOpenApi [] getPathRoute
      emptyState ⟨[("post", ⟨some [200], true⟩)]⟩ rfl (by decide)
      (by decide)⟩

end Ctms
